import Mathlib

/-!
# Droid2CameraWrapper: a shallow embedding of libcamera/Droid2CameraWrapper.cpp

The camera wrapper loads the vendor camera library, wraps the vendor object
in an adapter, caches a weak pointer to the adapter, and forwards every
operation of the camera hardware interface to the vendor object.

Modelling choices.

* Objects are identified by natural numbers.  An adapter's identity is its
  index in the list of adapters ever constructed (object identity, not its
  address, which the allocator may reuse).
* A strong pointer sp<T> is an Option: none is NULL.  A weak pointer wp<T> is
  an Option as well: none is a weak pointer that was never assigned.
* The reference count of an adapter is the number of strong pointers held
  outside the wrapper; the adapter is destroyed when it drops to zero.
* The dynamic loader and the vendor library are the environment: their
  answers are parameters, and every call made into them is appended to a log.
  Diagnostic output (LOGV, LOGE) is not part of the state.
* Dereferencing a NULL or dangling pointer has no defined result: the
  operation returns none.
-/

namespace android

/-! ## Platform types -/

/-- Status codes returned by the camera operations (status_t). -/
abbrev status_t := Int

/-- A strong pointer: none is NULL, some x refers to object x. -/
abbrev sp (α : Type) := Option α

/-- A weak pointer: none was never assigned, some x refers to object x,
which may have been destroyed since. -/
abbrev wp (α : Type) := Option α

/-- Modelled from the spec: the facing constant of the platform header
camera/Camera.h, which is not part of the repository; the spec calls it
back-facing. -/
def CAMERA_FACING_BACK : Int := 0

/-- The record filled in by HAL_getCameraInfo (struct CameraInfo). -/
structure CameraInfo where
  facing : Int
  orientation : Int
deriving DecidableEq, Repr

/-- Modelled from the spec: the parameter bag of the platform camera library
(class CameraParameters), which is not part of the repository; the spec
describes it as an opaque key-value bag. -/
structure CameraParameters where
  mMap : List (String × String)
deriving DecidableEq, Repr

/-- Modelled from the spec: the key of the platform camera library that says
smooth zoom is supported (CameraParameters::KEY_SMOOTH_ZOOM_SUPPORTED). -/
def CameraParameters.KEY_SMOOTH_ZOOM_SUPPORTED : String := "smooth-zoom-supported"

/-- Modelled from the spec: the value stored under a key of the parameter
bag, if the bag contains the key (CameraParameters::get). -/
def CameraParameters.get (p : CameraParameters) (key : String) : Option String :=
  (p.mMap.find? fun kv => kv.1 == key).map Prod.snd

/-- Modelled from the spec: removal of a key from the parameter bag
(CameraParameters::remove); the spec says the key is removed from the set. -/
def CameraParameters.remove (p : CameraParameters) (key : String) : CameraParameters :=
  ⟨p.mMap.filter fun kv => !(kv.1 == key)⟩

/-! ## The camera hardware interface -/

/-- One call of the camera hardware interface, with its arguments.  Callbacks,
user cookies, overlays and memory objects are opaque and stand as numbers. -/
inductive Call where
  | getPreviewHeap
  | getRawHeap
  | setCallbacks (notify_cb data_cb data_cb_timestamp user : Nat)
  | enableMsgType (msgType : Int)
  | disableMsgType (msgType : Int)
  | msgTypeEnabled (msgType : Int)
  | startPreview
  | useOverlay
  | setOverlay (overlay : sp Nat)
  | stopPreview
  | previewEnabled
  | startRecording
  | stopRecording
  | recordingEnabled
  | releaseRecordingFrame (mem : sp Nat)
  | autoFocus
  | cancelAutoFocus
  | takePicture
  | cancelPicture
  | setParameters (params : CameraParameters)
  | getParameters
  | sendCommand (cmd arg1 arg2 : Int)
  | release
  | dump (fd : Int) (args : List String)
deriving DecidableEq, Repr

/-- The result type of each call of the camera hardware interface. -/
@[reducible] def Call.Ret : Call → Type
  | .getPreviewHeap => sp Nat
  | .getRawHeap => sp Nat
  | .setCallbacks _ _ _ _ => Unit
  | .enableMsgType _ => Unit
  | .disableMsgType _ => Unit
  | .msgTypeEnabled _ => Bool
  | .startPreview => status_t
  | .useOverlay => Bool
  | .setOverlay _ => status_t
  | .stopPreview => Unit
  | .previewEnabled => Bool
  | .startRecording => status_t
  | .stopRecording => Unit
  | .recordingEnabled => Bool
  | .releaseRecordingFrame _ => Unit
  | .autoFocus => status_t
  | .cancelAutoFocus => status_t
  | .takePicture => status_t
  | .cancelPicture => status_t
  | .setParameters _ => status_t
  | .getParameters => CameraParameters
  | .sendCommand _ _ _ => status_t
  | .release => Unit
  | .dump _ _ => status_t

/-- The vendor implementation of the camera hardware interface: for every
call, the receiving vendor object and the vendor state, a result and the next
vendor state.  The wrapper knows nothing else about it. -/
abbrev CameraHardwareInterface (σ : Type) :=
  (c : Call) → Nat → σ → c.Ret × σ

/-! ## State -/

/-- The adapter object: its only member is the strong pointer to the vendor
object. -/
structure Droid2CameraWrapper where
  mMotoInterface : sp Nat
deriving DecidableEq, Repr

/-- An adapter on the heap with its strong reference count. -/
structure Object where
  obj : Droid2CameraWrapper
  strong : Nat
deriving DecidableEq, Repr

/-- A call made by the wrapper into its environment. -/
inductive Event where
  | dlopen (libName : String)
  | dlsym (libHandle : Nat) (funcName : String)
  | factory (func : Nat)
  | construct (adapter : Nat) (motoInterface : sp Nat)
  | vendor (moto : Nat) (call : Call)
deriving DecidableEq, Repr

/-- The process state: the adapters ever constructed, the static weak pointer
Droid2CameraWrapper::singleton, the state of the vendor library, and the log
of calls made so far. -/
structure World (σ : Type) where
  heap : List Object
  singleton : wp Nat
  vendor : σ
  log : List Event

/-- The state at process start: no adapter, an unassigned weak pointer. -/
def World.init {σ : Type} (s : σ) : World σ := ⟨[], none, s, []⟩

/-- The answers of the dynamic loader and of the resolved factory function
during one call of createInstance. -/
structure Env (σ : Type) where
  dlopen : String → Option Nat
  dlsym : Nat → String → Option Nat
  func : Nat → σ → sp Nat × σ

/-- Appends an event to the log. -/
def World.emit {σ : Type} (w : World σ) (e : Event) : World σ :=
  { w with log := w.log ++ [e] }

/-! ## Reference counting (utils/RefBase.h of the platform) -/

/-- Modelled from the spec: promotion of a weak pointer (wp::promote of the
platform, not part of the repository).  It yields a new strong pointer, and
counts it, when the referent is still alive, and NULL otherwise. -/
def promote {σ : Type} (p : wp Nat) (w : World σ) : sp Nat × World σ :=
  match p with
  | none => (none, w)
  | some id =>
    match w.heap[id]? with
    | none => (none, w)
    | some o =>
      if 0 < o.strong then
        (some id, { w with heap := w.heap.set id { o with strong := o.strong + 1 } })
      else (none, w)

/-- A holder of a strong pointer to a live adapter copies it. -/
def incStrong {σ : Type} (id : Nat) (w : World σ) : World σ :=
  match w.heap[id]? with
  | none => w
  | some o =>
    if 0 < o.strong then
      { w with heap := w.heap.set id { o with strong := o.strong + 1 } }
    else w

/-- A holder of a strong pointer to a live adapter drops it; the adapter is
destroyed when the count reaches zero. -/
def decStrong {σ : Type} (id : Nat) (w : World σ) : World σ :=
  match w.heap[id]? with
  | none => w
  | some o =>
    if 0 < o.strong then
      { w with heap := w.heap.set id { o with strong := o.strong - 1 } }
    else w

/-! ## The HAL entry points and the singleton accessor -/

/-- The number of cameras the HAL reports. -/
def HAL_getNumberOfCameras : Int := 1

/-- Fills in the camera description; the camera id is not consulted. -/
def HAL_getCameraInfo (_cameraId : Int) (cameraInfo : CameraInfo) : CameraInfo :=
  { cameraInfo with facing := CAMERA_FACING_BACK, orientation := 90 }

/-- Loads the vendor library, resolves the factory function and calls it. -/
def openMotoInterface {σ : Type} (env : Env σ) (libName funcName : String)
    (w : World σ) : sp Nat × World σ :=
  let libHandle := env.dlopen libName
  let w := w.emit (.dlopen libName)
  match libHandle with
  | some lib =>
    let func := env.dlsym lib funcName
    let w := w.emit (.dlsym lib funcName)
    match func with
    | some f =>
      let r := env.func f w.vendor
      (r.1, { w.emit (.factory f) with vendor := r.2 })
    | none => (none, w)
  | none => (none, w)

/-- The constructor of the adapter: it stores the strong pointer it is given. -/
def Droid2CameraWrapper.new (motoInterface : sp Nat) : Droid2CameraWrapper :=
  ⟨motoInterface⟩

/-- The singleton accessor. -/
def Droid2CameraWrapper.createInstance {σ : Type} (env : Env σ) (_cameraId : Int)
    (w : World σ) : sp Nat × World σ :=
  let p := if w.singleton ≠ none then promote w.singleton w else (none, w)
  match p.1 with
  | some hardware => (some hardware, p.2)
  | none =>
    let r := openMotoInterface env "libmotocamera.so"
      "_ZN7android9CameraHal14createInstanceEv" p.2
    let motoInterface := r.1
    let w := r.2
    if motoInterface ≠ none then
      let hardware := w.heap.length
      (some hardware,
        { w.emit (.construct hardware motoInterface) with
          heap := w.heap ++ [⟨Droid2CameraWrapper.new motoInterface, 1⟩],
          singleton := some hardware })
    else (none, w)

/-- The HAL entry point that opens the camera. -/
def HAL_openCameraHardware {σ : Type} (env : Env σ) (cameraId : Int)
    (w : World σ) : sp Nat × World σ :=
  Droid2CameraWrapper.createInstance env cameraId w

/-! ## The adapter operations -/

/-- The vendor object an adapter forwards to: the member mMotoInterface of a
live adapter.  There is none when the adapter does not exist, has been
destroyed, or holds a NULL pointer. -/
def Droid2CameraWrapper.moto {σ : Type} (this : Nat) (w : World σ) : Option Nat :=
  match w.heap[this]? with
  | none => none
  | some o => if 0 < o.strong then o.obj.mMotoInterface else none

/-- One call into the vendor object: the vendor computes the result and its
next state, and the call is logged. -/
def invoke {σ : Type} (vendor : CameraHardwareInterface σ) (moto : Nat) (c : Call)
    (w : World σ) : c.Ret × World σ :=
  let r := vendor c moto w.vendor
  (r.1, { w.emit (.vendor moto c) with vendor := r.2 })

namespace Droid2CameraWrapper

variable {σ : Type} (vendor : CameraHardwareInterface σ) (this : Nat)

def getPreviewHeap (w : World σ) : Option (sp Nat × World σ) :=
  (moto this w).map fun m => invoke vendor m .getPreviewHeap w

def getRawHeap (w : World σ) : Option (sp Nat × World σ) :=
  (moto this w).map fun m => invoke vendor m .getRawHeap w

def setCallbacks (notify_cb data_cb data_cb_timestamp user : Nat) (w : World σ) :
    Option (Unit × World σ) :=
  (moto this w).map fun m =>
    invoke vendor m (.setCallbacks notify_cb data_cb data_cb_timestamp user) w

def enableMsgType (msgType : Int) (w : World σ) : Option (Unit × World σ) :=
  (moto this w).map fun m => invoke vendor m (.enableMsgType msgType) w

def disableMsgType (msgType : Int) (w : World σ) : Option (Unit × World σ) :=
  (moto this w).map fun m => invoke vendor m (.disableMsgType msgType) w

def msgTypeEnabled (msgType : Int) (w : World σ) : Option (Bool × World σ) :=
  (moto this w).map fun m => invoke vendor m (.msgTypeEnabled msgType) w

def startPreview (w : World σ) : Option (status_t × World σ) :=
  (moto this w).map fun m => invoke vendor m .startPreview w

def useOverlay (w : World σ) : Option (Bool × World σ) :=
  (moto this w).map fun m => invoke vendor m .useOverlay w

def setOverlay (overlay : sp Nat) (w : World σ) : Option (status_t × World σ) :=
  (moto this w).map fun m => invoke vendor m (.setOverlay overlay) w

def stopPreview (w : World σ) : Option (Unit × World σ) :=
  (moto this w).map fun m => invoke vendor m .stopPreview w

def previewEnabled (w : World σ) : Option (Bool × World σ) :=
  (moto this w).map fun m => invoke vendor m .previewEnabled w

def startRecording (w : World σ) : Option (status_t × World σ) :=
  (moto this w).map fun m => invoke vendor m .startRecording w

def stopRecording (w : World σ) : Option (Unit × World σ) :=
  (moto this w).map fun m => invoke vendor m .stopRecording w

def recordingEnabled (w : World σ) : Option (Bool × World σ) :=
  (moto this w).map fun m => invoke vendor m .recordingEnabled w

def releaseRecordingFrame (mem : sp Nat) (w : World σ) : Option (Unit × World σ) :=
  (moto this w).map fun m => invoke vendor m (.releaseRecordingFrame mem) w

def autoFocus (w : World σ) : Option (status_t × World σ) :=
  (moto this w).map fun m => invoke vendor m .autoFocus w

def cancelAutoFocus (w : World σ) : Option (status_t × World σ) :=
  (moto this w).map fun m => invoke vendor m .cancelAutoFocus w

def takePicture (w : World σ) : Option (status_t × World σ) :=
  (moto this w).map fun m => invoke vendor m .takePicture w

def cancelPicture (w : World σ) : Option (status_t × World σ) :=
  (moto this w).map fun m => invoke vendor m .cancelPicture w

def setParameters (params : CameraParameters) (w : World σ) :
    Option (status_t × World σ) :=
  (moto this w).map fun m => invoke vendor m (.setParameters params) w

/-- The parameters of the vendor with the smooth zoom key removed. -/
def getParameters (w : World σ) : Option (CameraParameters × World σ) :=
  (moto this w).map fun m =>
    let r := invoke vendor m .getParameters w
    let params : CameraParameters := r.1
    let params := params.remove CameraParameters.KEY_SMOOTH_ZOOM_SUPPORTED
    (params, r.2)

def sendCommand (cmd arg1 arg2 : Int) (w : World σ) : Option (status_t × World σ) :=
  (moto this w).map fun m => invoke vendor m (.sendCommand cmd arg1 arg2) w

/-- The body of release is empty: the call to the vendor is commented out. -/
def release (_this : Nat) (w : World σ) : Option (Unit × World σ) :=
  some ((), w)

def dump (fd : Int) (args : List String) (w : World σ) : Option (status_t × World σ) :=
  (moto this w).map fun m => invoke vendor m (.dump fd args) w

/-- Virtual dispatch: the adapter implements the camera hardware interface,
so a call on an adapter runs the method of the same name. -/
def dispatch : (c : Call) → World σ → Option (c.Ret × World σ)
  | .getPreviewHeap => getPreviewHeap vendor this
  | .getRawHeap => getRawHeap vendor this
  | .setCallbacks n d t u => setCallbacks vendor this n d t u
  | .enableMsgType m => enableMsgType vendor this m
  | .disableMsgType m => disableMsgType vendor this m
  | .msgTypeEnabled m => msgTypeEnabled vendor this m
  | .startPreview => startPreview vendor this
  | .useOverlay => useOverlay vendor this
  | .setOverlay o => setOverlay vendor this o
  | .stopPreview => stopPreview vendor this
  | .previewEnabled => previewEnabled vendor this
  | .startRecording => startRecording vendor this
  | .stopRecording => stopRecording vendor this
  | .recordingEnabled => recordingEnabled vendor this
  | .releaseRecordingFrame m => releaseRecordingFrame vendor this m
  | .autoFocus => autoFocus vendor this
  | .cancelAutoFocus => cancelAutoFocus vendor this
  | .takePicture => takePicture vendor this
  | .cancelPicture => cancelPicture vendor this
  | .setParameters p => setParameters vendor this p
  | .getParameters => getParameters vendor this
  | .sendCommand c a b => sendCommand vendor this c a b
  | .release => release this
  | .dump fd args => dump vendor this fd args

end Droid2CameraWrapper

/-! ## Executions -/

/-- One step of a sequential execution, as seen from the camera service. -/
inductive Step (σ : Type) where
  | create (env : Env σ) (cameraId : Int)
  | incStrong (id : Nat)
  | decStrong (id : Nat)
  | call (id : Nat) (c : Call)

/-- Runs one step.  A step that the camera service cannot take, such as a
call through a pointer it does not hold, leaves the state as it is. -/
def step {σ : Type} (vendor : CameraHardwareInterface σ) (w : World σ) :
    Step σ → World σ
  | .create env cameraId => (HAL_openCameraHardware env cameraId w).2
  | .incStrong id => incStrong id w
  | .decStrong id => decStrong id w
  | .call id c =>
    match Droid2CameraWrapper.dispatch vendor id c w with
    | some r => r.2
    | none => w

/-- Runs a sequence of steps from a state. -/
def run {σ : Type} (vendor : CameraHardwareInterface σ) (w : World σ)
    (steps : List (Step σ)) : World σ :=
  steps.foldl (step vendor) w

/-! ## Observations used in the statements -/

/-- The cached weak pointer refers to an adapter that is still alive. -/
def World.cacheLive {σ : Type} (w : World σ) : Bool :=
  match w.singleton with
  | none => false
  | some id =>
    match w.heap[id]? with
    | none => false
    | some o => decide (0 < o.strong)

/-- The adapters that are alive. -/
def World.live {σ : Type} (w : World σ) : List Nat :=
  (List.range w.heap.length).filter fun id =>
    match w.heap[id]? with
    | none => false
    | some o => decide (0 < o.strong)

/-- How many times the library was loaded. -/
def loads (log : List Event) : Nat :=
  log.countP fun e => match e with
    | .dlopen _ => true
    | _ => false

/-- How many times a symbol was resolved. -/
def resolves (log : List Event) : Nat :=
  log.countP fun e => match e with
    | .dlsym _ _ => true
    | _ => false

/-- How many times the factory function was called. -/
def factoryCalls (log : List Event) : Nat :=
  log.countP fun e => match e with
    | .factory _ => true
    | _ => false

/-- How many adapters were constructed. -/
def constructions (log : List Event) : Nat :=
  log.countP fun e => match e with
    | .construct _ _ => true
    | _ => false

/-- How many calls were made into vendor objects. -/
def vendorCalls (log : List Event) : Nat :=
  log.countP fun e => match e with
    | .vendor _ _ => true
    | _ => false

/-! ## Concrete environments and states -/

/-- A loader that finds the vendor library and its factory symbol under the
names the wrapper uses, and a factory that returns a fresh vendor object. -/
def envOk : Env Nat where
  dlopen := fun n => if n = "libmotocamera.so" then some 11 else none
  dlsym := fun l n =>
    if l = 11 ∧ n = "_ZN7android9CameraHal14createInstanceEv" then some 22 else none
  func := fun _ s => (some (100 + s), s + 1)

/-- A loader that cannot load the library. -/
def envNoLib : Env Nat where
  dlopen := fun _ => none
  dlsym := fun _ _ => some 22
  func := fun _ s => (some (100 + s), s + 1)

/-- A loader that loads the library but does not find the symbol. -/
def envNoSym : Env Nat where
  dlopen := fun _ => some 11
  dlsym := fun _ _ => none
  func := fun _ s => (some (100 + s), s + 1)

/-- A loader that succeeds and a factory that returns a NULL pointer. -/
def envNull : Env Nat where
  dlopen := fun _ => some 11
  dlsym := fun _ _ => some 22
  func := fun _ s => (none, s + 1)

/-- A recording test double for the vendor: every call bumps the vendor state;
status results are failures, and the parameters advertise smooth zoom. -/
def vendorDouble : CameraHardwareInterface Nat
  | .getPreviewHeap, _, s => (some 5, s + 1)
  | .getRawHeap, _, s => (none, s + 1)
  | .setCallbacks _ _ _ _, _, s => ((), s + 1)
  | .enableMsgType _, _, s => ((), s + 1)
  | .disableMsgType _, _, s => ((), s + 1)
  | .msgTypeEnabled m, _, s => (decide (m = 1), s + 1)
  | .startPreview, _, s => (-38, s + 1)
  | .useOverlay, _, s => (true, s + 1)
  | .setOverlay _, _, s => (-22, s + 1)
  | .stopPreview, _, s => ((), s + 1)
  | .previewEnabled, _, s => (false, s + 1)
  | .startRecording, _, s => (-38, s + 1)
  | .stopRecording, _, s => ((), s + 1)
  | .recordingEnabled, _, s => (false, s + 1)
  | .releaseRecordingFrame _, _, s => ((), s + 1)
  | .autoFocus, _, s => (-1, s + 1)
  | .cancelAutoFocus, _, s => (0, s + 1)
  | .takePicture, _, s => (-1, s + 1)
  | .cancelPicture, _, s => (0, s + 1)
  | .setParameters _, _, s => (-22, s + 1)
  | .getParameters, _, s =>
    (⟨[("preview-size", "640x480"), ("smooth-zoom-supported", "true"),
       ("zoom", "0")]⟩, s + 1)
  | .sendCommand cmd arg1 arg2, _, s => (cmd + arg1 + arg2, s + 1)
  | .release, _, s => ((), s + 1)
  | .dump _ _, _, s => (0, s + 1)

/-- A state with one live adapter, held once, wrapping vendor object 100. -/
def worldLive : World Nat :=
  ⟨[⟨⟨some 100⟩, 1⟩], some 0, 1, []⟩

/-- The state after the first successful createInstance of a process. -/
def worldCreated : World Nat :=
  (Droid2CameraWrapper.createInstance envOk 0 (World.init 0)).2

/-- The state after the only holder of that first adapter released it: the
cached weak pointer now refers to a destroyed adapter. -/
def worldStale : World Nat := decStrong 0 worldCreated

/-- An execution: the camera is opened twice, both pointers are dropped, and
the camera is opened again. -/
def stepsDemo : List (Step Nat) :=
  [.create envOk 0, .create envOk 1, .decStrong 0, .decStrong 0, .create envOk 2]

/-! ## Fixed enumeration and description -/

/-- C7: HAL_getNumberOfCameras is 1, and HAL_getCameraInfo sets facing to
CAMERA_FACING_BACK and orientation to 90 for every camera id and every prior
content of the record, so the facing and orientation it reports are the same
for any two camera ids. -/
theorem HAL_fixed_enumeration_and_description :
    HAL_getNumberOfCameras = 1 ∧
    ∀ (cameraId : Int) (info : CameraInfo),
      (HAL_getCameraInfo cameraId info).facing = CAMERA_FACING_BACK ∧
      (HAL_getCameraInfo cameraId info).orientation = 90 ∧
      ∀ (cameraId2 : Int) (info2 : CameraInfo),
        HAL_getCameraInfo cameraId info = HAL_getCameraInfo cameraId2 info2 :=
  ⟨rfl, fun _ _ => ⟨rfl, rfl, fun _ _ => rfl⟩⟩

/-! ## The adapter operations -/

/-- The vendor object of a live adapter that wraps a non-NULL pointer. -/
theorem Droid2CameraWrapper.moto_eq {σ : Type} {this : Nat} {w : World σ} {o : Object}
    {v : Nat} (hh : w.heap[this]? = some o) (ha : 0 < o.strong)
    (hm : o.obj.mMotoInterface = some v) : Droid2CameraWrapper.moto this w = some v := by
  simp [Droid2CameraWrapper.moto, hh, ha, hm]

/-- C5: release on an adapter, in every state, returns with the state exactly
as it was: nothing is added to the log of calls into the vendor, and the
adapters (with their wrapped pointers), the vendor state and the cached weak
pointer are unchanged. -/
theorem release_is_noop {σ : Type} (vendor : CameraHardwareInterface σ) (this : Nat)
    (w : World σ) :
    Droid2CameraWrapper.dispatch vendor this .release w = some ((), w) ∧
    ∀ r, Droid2CameraWrapper.dispatch vendor this .release w = some r →
      r.2.log = w.log ∧ vendorCalls r.2.log = vendorCalls w.log ∧
      r.2.heap = w.heap ∧ r.2.vendor = w.vendor ∧ r.2.singleton = w.singleton := by
  refine ⟨rfl, ?_⟩
  intro r hr
  have h : r = ((), w) := by
    simpa [Droid2CameraWrapper.dispatch, Droid2CameraWrapper.release] using hr.symm
  subst h
  exact ⟨rfl, rfl, rfl, rfl, rfl⟩

/-- C6: on a live adapter that wraps vendor object v, every operation other
than getParameters and release makes exactly one call into the vendor, the
call of the same name on v with the same arguments, and returns the result of
the vendor, whatever it is; the state changes only as the vendor changed it. -/
theorem forwarding_is_pure {σ : Type} (vendor : CameraHardwareInterface σ) (this : Nat)
    (w : World σ) (o : Object) (v : Nat) (c : Call)
    (hh : w.heap[this]? = some o) (ha : 0 < o.strong)
    (hm : o.obj.mMotoInterface = some v)
    (hp : c ≠ .getParameters) (hr : c ≠ .release) :
    Droid2CameraWrapper.dispatch vendor this c w =
      some ((vendor c v w.vendor).1,
        { w with vendor := (vendor c v w.vendor).2,
                 log := w.log ++ [Event.vendor v c] }) := by
  have hmoto := Droid2CameraWrapper.moto_eq hh ha hm
  cases c <;>
    first
    | exact absurd rfl hp
    | exact absurd rfl hr
    | simp [Droid2CameraWrapper.dispatch, Droid2CameraWrapper.getPreviewHeap,
        Droid2CameraWrapper.getRawHeap, Droid2CameraWrapper.setCallbacks,
        Droid2CameraWrapper.enableMsgType, Droid2CameraWrapper.disableMsgType,
        Droid2CameraWrapper.msgTypeEnabled, Droid2CameraWrapper.startPreview,
        Droid2CameraWrapper.useOverlay, Droid2CameraWrapper.setOverlay,
        Droid2CameraWrapper.stopPreview, Droid2CameraWrapper.previewEnabled,
        Droid2CameraWrapper.startRecording, Droid2CameraWrapper.stopRecording,
        Droid2CameraWrapper.recordingEnabled, Droid2CameraWrapper.releaseRecordingFrame,
        Droid2CameraWrapper.autoFocus, Droid2CameraWrapper.cancelAutoFocus,
        Droid2CameraWrapper.takePicture, Droid2CameraWrapper.cancelPicture,
        Droid2CameraWrapper.setParameters, Droid2CameraWrapper.sendCommand,
        Droid2CameraWrapper.dump, hmoto, invoke, World.emit]

/-- The witness of C6: sendCommand on a live adapter calls sendCommand on the
vendor once and returns its result. -/
theorem forwarding_is_pure_witness :
    Droid2CameraWrapper.dispatch vendorDouble 0 (.sendCommand 1 2 3) worldLive =
      some ((6 : Int),
        ⟨[⟨⟨some 100⟩, 1⟩], some 0, 2, [Event.vendor 100 (.sendCommand 1 2 3)]⟩) :=
  forwarding_is_pure vendorDouble 0 worldLive ⟨⟨some 100⟩, 1⟩ 100 (.sendCommand 1 2 3)
    rfl (by decide) rfl (by decide) (by decide)

/-- A removed key is no longer found in the bag. -/
theorem CameraParameters.get_remove_self (p : CameraParameters) (key : String) :
    (p.remove key).get key = none := by
  have h : ∀ l : List (String × String),
      (l.filter fun kv => !(kv.1 == key)).find? (fun kv => kv.1 == key) = none := by
    intro l
    rw [List.find?_eq_none]
    intro kv hkv
    have := (List.mem_filter.mp hkv).2
    simpa using this
  simp only [CameraParameters.get, CameraParameters.remove, h, Option.map_none']

/-- Removing a key does not change what is found under any other key. -/
theorem CameraParameters.get_remove_other (p : CameraParameters) (key k : String)
    (hk : k ≠ key) : (p.remove key).get k = p.get k := by
  have h : ∀ l : List (String × String),
      (l.filter fun kv => !(kv.1 == key)).find? (fun kv => kv.1 == k) =
        l.find? (fun kv => kv.1 == k) := by
    intro l
    induction l with
    | nil => rfl
    | cons kv l ih =>
      rw [List.filter_cons]
      by_cases h1 : kv.1 = key
      · have h2 : (kv.1 == k) = false := by
          simp only [beq_eq_false_iff_ne, ne_eq]
          exact fun e => hk (e.symm.trans h1)
        have h3 : (!(kv.1 == key)) = false := by simp [h1]
        rw [if_neg (by rw [h3]; exact Bool.false_ne_true), List.find?_cons, h2]
        exact ih
      · have h3 : (!(kv.1 == key)) = true := by simp [h1]
        rw [if_pos h3, List.find?_cons, List.find?_cons, ih]
  simp only [CameraParameters.get, CameraParameters.remove, h]

/-- C4: on a live adapter that wraps vendor object v, getParameters calls
getParameters on v exactly once and makes no other call; if the vendor
returns the bag P, the adapter returns a bag that does not contain the smooth
zoom key and that agrees with P on every other key (present in one iff present
in the other, with the same value). -/
theorem getParameters_removes_smooth_zoom {σ : Type} (vendor : CameraHardwareInterface σ)
    (this : Nat) (w : World σ) (o : Object) (v : Nat) (P : CameraParameters) (s : σ)
    (hh : w.heap[this]? = some o) (ha : 0 < o.strong)
    (hm : o.obj.mMotoInterface = some v)
    (hP : vendor .getParameters v w.vendor = (P, s)) :
    ∃ Q : CameraParameters,
      Droid2CameraWrapper.getParameters vendor this w =
        some (Q, { w with vendor := s, log := w.log ++ [Event.vendor v .getParameters] }) ∧
      Droid2CameraWrapper.dispatch vendor this .getParameters w =
        Droid2CameraWrapper.getParameters vendor this w ∧
      Q = P.remove CameraParameters.KEY_SMOOTH_ZOOM_SUPPORTED ∧
      Q.get CameraParameters.KEY_SMOOTH_ZOOM_SUPPORTED = none ∧
      ∀ k, k ≠ CameraParameters.KEY_SMOOTH_ZOOM_SUPPORTED → Q.get k = P.get k := by
  refine ⟨P.remove CameraParameters.KEY_SMOOTH_ZOOM_SUPPORTED, ?_, rfl, rfl,
    CameraParameters.get_remove_self _ _, fun k hk =>
      CameraParameters.get_remove_other _ _ _ hk⟩
  simp [Droid2CameraWrapper.getParameters, Droid2CameraWrapper.moto_eq hh ha hm, invoke,
    World.emit, hP]

/-- The witness of C4: the test double advertises smooth zoom, and the
adapter returns its bag without that key. -/
theorem getParameters_removes_smooth_zoom_witness :
    ∃ Q : CameraParameters,
      Droid2CameraWrapper.getParameters vendorDouble 0 worldLive =
        some (Q, ⟨[⟨⟨some 100⟩, 1⟩], some 0, 2, [Event.vendor 100 .getParameters]⟩) ∧
      Droid2CameraWrapper.dispatch vendorDouble 0 .getParameters worldLive =
        Droid2CameraWrapper.getParameters vendorDouble 0 worldLive ∧
      Q = (⟨[("preview-size", "640x480"), ("smooth-zoom-supported", "true"),
        ("zoom", "0")]⟩ : CameraParameters).remove
          CameraParameters.KEY_SMOOTH_ZOOM_SUPPORTED ∧
      Q.get CameraParameters.KEY_SMOOTH_ZOOM_SUPPORTED = none ∧
      ∀ k, k ≠ CameraParameters.KEY_SMOOTH_ZOOM_SUPPORTED → Q.get k =
        (⟨[("preview-size", "640x480"), ("smooth-zoom-supported", "true"),
          ("zoom", "0")]⟩ : CameraParameters).get k :=
  getParameters_removes_smooth_zoom vendorDouble 0 worldLive ⟨⟨some 100⟩, 1⟩ 100
    ⟨[("preview-size", "640x480"), ("smooth-zoom-supported", "true"), ("zoom", "0")]⟩ 2
    rfl (by decide) rfl rfl

/-! ## The singleton accessor, one call at a time -/

/-- A live cache unfolds to a cached adapter with a positive count. -/
theorem World.cacheLive_iff {σ : Type} (w : World σ) :
    w.cacheLive = true ↔
      ∃ id o, w.singleton = some id ∧ w.heap[id]? = some o ∧ 0 < o.strong := by
  unfold World.cacheLive
  constructor
  · intro h
    cases hs : w.singleton with
    | none => simp [hs] at h
    | some id =>
      cases hh : w.heap[id]? with
      | none => simp [hs, hh] at h
      | some o =>
        simp [hs, hh] at h
        exact ⟨id, o, rfl, hh, h⟩
  · rintro ⟨id, o, hs, hh, ha⟩
    simp [hs, hh, ha]

/-- With an empty or stale cache the check at the top of createInstance
finds nothing and leaves the state alone. -/
theorem promote_of_stale {σ : Type} (w : World σ) (h : w.cacheLive = false) :
    (if w.singleton ≠ none then promote w.singleton w else (none, w)) = (none, w) := by
  unfold World.cacheLive at h
  cases hs : w.singleton with
  | none => simp
  | some id =>
    cases hh : w.heap[id]? with
    | none => simp [promote, hh]
    | some o =>
      simp [hs, hh] at h
      simp [promote, hh, h]

/-- With a live cache the check at the top of createInstance promotes the
weak pointer. -/
theorem promote_of_live {σ : Type} (w : World σ) (id : Nat) (o : Object)
    (hs : w.singleton = some id) (hh : w.heap[id]? = some o) (ha : 0 < o.strong) :
    (if w.singleton ≠ none then promote w.singleton w else (none, w)) =
      (some id, { w with heap := w.heap.set id { o with strong := o.strong + 1 } }) := by
  simp [hs, promote, hh, ha]

/-- The reuse path of createInstance. -/
theorem createInstance_of_live {σ : Type} (env : Env σ) (cameraId : Int) (w : World σ)
    (id : Nat) (o : Object)
    (hs : w.singleton = some id) (hh : w.heap[id]? = some o) (ha : 0 < o.strong) :
    Droid2CameraWrapper.createInstance env cameraId w =
      (some id, { w with heap := w.heap.set id { o with strong := o.strong + 1 } }) := by
  unfold Droid2CameraWrapper.createInstance
  rw [promote_of_live w id o hs hh ha]

/-- The creation path of createInstance. -/
theorem createInstance_of_stale {σ : Type} (env : Env σ) (cameraId : Int) (w : World σ)
    (h : w.cacheLive = false) :
    Droid2CameraWrapper.createInstance env cameraId w =
      if (openMotoInterface env "libmotocamera.so"
          "_ZN7android9CameraHal14createInstanceEv" w).1 ≠ none then
        (some (openMotoInterface env "libmotocamera.so"
            "_ZN7android9CameraHal14createInstanceEv" w).2.heap.length,
          { (openMotoInterface env "libmotocamera.so"
              "_ZN7android9CameraHal14createInstanceEv" w).2 with
            log := (openMotoInterface env "libmotocamera.so"
              "_ZN7android9CameraHal14createInstanceEv" w).2.log ++
                [.construct (openMotoInterface env "libmotocamera.so"
                  "_ZN7android9CameraHal14createInstanceEv" w).2.heap.length
                  (openMotoInterface env "libmotocamera.so"
                  "_ZN7android9CameraHal14createInstanceEv" w).1],
            heap := (openMotoInterface env "libmotocamera.so"
              "_ZN7android9CameraHal14createInstanceEv" w).2.heap ++
                [⟨⟨(openMotoInterface env "libmotocamera.so"
                  "_ZN7android9CameraHal14createInstanceEv" w).1⟩, 1⟩],
            singleton := some (openMotoInterface env "libmotocamera.so"
              "_ZN7android9CameraHal14createInstanceEv" w).2.heap.length })
      else (none, (openMotoInterface env "libmotocamera.so"
          "_ZN7android9CameraHal14createInstanceEv" w).2) := by
  unfold Droid2CameraWrapper.createInstance
  rw [promote_of_stale w h]
  rfl

/-- The loader fails: nothing else is attempted. -/
theorem openMotoInterface_of_load_failure {σ : Type} (env : Env σ) (libName funcName : String)
    (w : World σ) (hl : env.dlopen libName = none) :
    openMotoInterface env libName funcName w =
      (none, { w with log := w.log ++ [.dlopen libName] }) := by
  simp [openMotoInterface, hl, World.emit]

/-- The symbol is not found: the factory is not called. -/
theorem openMotoInterface_of_symbol_failure {σ : Type} (env : Env σ)
    (libName funcName : String) (w : World σ) (l : Nat)
    (hl : env.dlopen libName = some l) (hf : env.dlsym l funcName = none) :
    openMotoInterface env libName funcName w =
      (none, { w with log := w.log ++ [.dlopen libName, .dlsym l funcName] }) := by
  simp [openMotoInterface, hl, hf, World.emit]

/-- The library loads and the symbol resolves: the factory is called and its
result returned as it is. -/
theorem openMotoInterface_of_resolved {σ : Type} (env : Env σ)
    (libName funcName : String) (w : World σ) (l f : Nat)
    (hl : env.dlopen libName = some l) (hf : env.dlsym l funcName = some f) :
    openMotoInterface env libName funcName w =
      ((env.func f w.vendor).1,
        { w with vendor := (env.func f w.vendor).2,
                 log := w.log ++ [.dlopen libName, .dlsym l funcName, .factory f] }) := by
  simp [openMotoInterface, hl, hf, World.emit]

/-- The creation path when the library does not load. -/
theorem createInstance_of_load_failure {σ : Type} (env : Env σ) (cameraId : Int)
    (w : World σ) (h : w.cacheLive = false)
    (hl : env.dlopen "libmotocamera.so" = none) :
    Droid2CameraWrapper.createInstance env cameraId w =
      (none, { w with log := w.log ++ [.dlopen "libmotocamera.so"] }) := by
  rw [createInstance_of_stale env cameraId w h,
    openMotoInterface_of_load_failure env _ _ w hl]
  simp

/-- The creation path when the factory symbol is not found. -/
theorem createInstance_of_symbol_failure {σ : Type} (env : Env σ) (cameraId : Int)
    (w : World σ) (l : Nat) (h : w.cacheLive = false)
    (hl : env.dlopen "libmotocamera.so" = some l)
    (hf : env.dlsym l "_ZN7android9CameraHal14createInstanceEv" = none) :
    Droid2CameraWrapper.createInstance env cameraId w =
      (none, { w with log := w.log ++ [.dlopen "libmotocamera.so",
        .dlsym l "_ZN7android9CameraHal14createInstanceEv"] }) := by
  rw [createInstance_of_stale env cameraId w h,
    openMotoInterface_of_symbol_failure env _ _ w l hl hf]
  simp

/-- The creation path when the factory returns a NULL pointer. -/
theorem createInstance_of_null_factory {σ : Type} (env : Env σ) (cameraId : Int)
    (w : World σ) (l f : Nat) (h : w.cacheLive = false)
    (hl : env.dlopen "libmotocamera.so" = some l)
    (hf : env.dlsym l "_ZN7android9CameraHal14createInstanceEv" = some f)
    (hv : (env.func f w.vendor).1 = none) :
    Droid2CameraWrapper.createInstance env cameraId w =
      (none, { w with vendor := (env.func f w.vendor).2,
                      log := w.log ++ [.dlopen "libmotocamera.so",
                        .dlsym l "_ZN7android9CameraHal14createInstanceEv",
                        .factory f] }) := by
  rw [createInstance_of_stale env cameraId w h,
    openMotoInterface_of_resolved env _ _ w l f hl hf]
  simp [hv]

/-- The creation path when the factory returns a vendor object. -/
theorem createInstance_of_created {σ : Type} (env : Env σ) (cameraId : Int)
    (w : World σ) (l f v : Nat) (h : w.cacheLive = false)
    (hl : env.dlopen "libmotocamera.so" = some l)
    (hf : env.dlsym l "_ZN7android9CameraHal14createInstanceEv" = some f)
    (hv : (env.func f w.vendor).1 = some v) :
    Droid2CameraWrapper.createInstance env cameraId w =
      (some w.heap.length,
        ⟨w.heap ++ [⟨⟨some v⟩, 1⟩], some w.heap.length, (env.func f w.vendor).2,
          w.log ++ [.dlopen "libmotocamera.so",
            .dlsym l "_ZN7android9CameraHal14createInstanceEv",
            .factory f, .construct w.heap.length (some v)]⟩) := by
  rw [createInstance_of_stale env cameraId w h,
    openMotoInterface_of_resolved env _ _ w l f hl hf]
  simp [hv, World.emit, Droid2CameraWrapper.new]

/-- Every call of createInstance takes one of three courses: it reuses the
live cached adapter, it fails and constructs nothing, or it constructs a new
adapter around a non-NULL vendor pointer and caches it. -/
theorem createInstance_cases {σ : Type} (env : Env σ) (cameraId : Int) (w : World σ) :
    (∃ id o, w.singleton = some id ∧ w.heap[id]? = some o ∧ 0 < o.strong ∧
      (Droid2CameraWrapper.createInstance env cameraId w).1 = some id ∧
      (Droid2CameraWrapper.createInstance env cameraId w).2.heap =
        w.heap.set id { o with strong := o.strong + 1 } ∧
      (Droid2CameraWrapper.createInstance env cameraId w).2.singleton = w.singleton ∧
      (Droid2CameraWrapper.createInstance env cameraId w).2.log = w.log) ∨
    (w.cacheLive = false ∧
      (Droid2CameraWrapper.createInstance env cameraId w).1 = none ∧
      (Droid2CameraWrapper.createInstance env cameraId w).2.heap = w.heap ∧
      (Droid2CameraWrapper.createInstance env cameraId w).2.singleton = w.singleton ∧
      constructions (Droid2CameraWrapper.createInstance env cameraId w).2.log =
        constructions w.log) ∨
    (w.cacheLive = false ∧ ∃ v,
      (Droid2CameraWrapper.createInstance env cameraId w).1 = some w.heap.length ∧
      (Droid2CameraWrapper.createInstance env cameraId w).2.heap =
        w.heap ++ [⟨⟨some v⟩, 1⟩] ∧
      (Droid2CameraWrapper.createInstance env cameraId w).2.singleton =
        some w.heap.length ∧
      factoryCalls (Droid2CameraWrapper.createInstance env cameraId w).2.log =
        factoryCalls w.log + 1) := by
  cases hc : w.cacheLive with
  | true =>
    obtain ⟨id, o, hs, hh, ha⟩ := (World.cacheLive_iff w).mp hc
    left
    refine ⟨id, o, hs, hh, ha, ?_⟩
    rw [createInstance_of_live env cameraId w id o hs hh ha]
    exact ⟨rfl, rfl, rfl, rfl⟩
  | false =>
    right
    cases hl : env.dlopen "libmotocamera.so" with
    | none =>
      left
      rw [createInstance_of_load_failure env cameraId w hc hl]
      refine ⟨rfl, rfl, rfl, rfl, ?_⟩
      simp [constructions]
    | some l =>
      cases hf : env.dlsym l "_ZN7android9CameraHal14createInstanceEv" with
      | none =>
        left
        rw [createInstance_of_symbol_failure env cameraId w l hc hl hf]
        refine ⟨rfl, rfl, rfl, rfl, ?_⟩
        simp [constructions]
      | some f =>
        cases hv : (env.func f w.vendor).1 with
        | none =>
          left
          rw [createInstance_of_null_factory env cameraId w l f hc hl hf hv]
          refine ⟨rfl, rfl, rfl, rfl, ?_⟩
          simp [constructions]
        | some v =>
          right
          refine ⟨rfl, v, ?_⟩
          rw [createInstance_of_created env cameraId w l f v hc hl hf hv]
          refine ⟨rfl, rfl, rfl, ?_⟩
          simp [factoryCalls]

/-! ## The contract of createInstance -/

/-- The first successful createInstance of a process, evaluated. -/
theorem worldCreated_eq :
    Droid2CameraWrapper.createInstance envOk 0 (World.init 0) =
      (some 0, worldCreated) ∧
    worldCreated = ⟨[⟨⟨some 100⟩, 1⟩], some 0, 1,
      [.dlopen "libmotocamera.so",
       .dlsym 11 "_ZN7android9CameraHal14createInstanceEv",
       .factory 22, .construct 0 (some 100)]⟩ := by
  have h := createInstance_of_created envOk 0 (World.init 0) 11 22 100 rfl
    (by simp [envOk]) (by simp [envOk]) rfl
  unfold worldCreated
  rw [h]
  exact ⟨rfl, rfl⟩

/-- C1: when the cached weak pointer refers to a live adapter, createInstance
returns that adapter, for every camera id and whatever the loader would
answer: the log of loads, symbol resolutions, factory calls and constructions
is unchanged, the adapter still wraps the same vendor pointer, and only its
reference count grows by the pointer returned.  Hence, when the state is the
outcome of a createInstance that created the adapter, the two calls return the
same adapter and the factory was called exactly once over both. -/
theorem createInstance_reuses_live_adapter {σ : Type} (env : Env σ) (cameraId : Int)
    (w : World σ) (id : Nat) (o : Object)
    (hs : w.singleton = some id) (hh : w.heap[id]? = some o) (ha : 0 < o.strong) :
    ∃ w2, Droid2CameraWrapper.createInstance env cameraId w = (some id, w2) ∧
      w2.log = w.log ∧ loads w2.log = loads w.log ∧ resolves w2.log = resolves w.log ∧
      factoryCalls w2.log = factoryCalls w.log ∧
      constructions w2.log = constructions w.log ∧
      w2.singleton = some id ∧ w2.vendor = w.vendor ∧
      w2.heap = w.heap.set id ⟨o.obj, o.strong + 1⟩ ∧
      w2.heap[id]? = some ⟨o.obj, o.strong + 1⟩ ∧
      ∀ (env0 : Env σ) (cameraId0 : Int) (w0 : World σ), w0.cacheLive = false →
        Droid2CameraWrapper.createInstance env0 cameraId0 w0 = (some id, w) →
        factoryCalls w2.log = factoryCalls w0.log + 1 := by
  refine ⟨_, createInstance_of_live env cameraId w id o hs hh ha, rfl, rfl, rfl, rfl, rfl,
    hs, rfl, rfl, ?_, ?_⟩
  · have hlt : id < w.heap.length := by
      rcases List.getElem?_eq_some.mp hh with ⟨h, _⟩
      exact h
    simp [List.getElem?_set, hlt]
  · intro env0 cameraId0 w0 hstale hfirst
    rcases createInstance_cases env0 cameraId0 w0 with
      ⟨i, oi, hsi, hhi, hai, _⟩ | ⟨_, hnone, _⟩ | ⟨_, v, _, _, _, hcount⟩
    · have : w0.cacheLive = true := (World.cacheLive_iff w0).mpr ⟨i, oi, hsi, hhi, hai⟩
      rw [hstale] at this
      exact absurd this (by decide)
    · rw [hfirst] at hnone
      exact absurd hnone (by simp)
    · rw [hfirst] at hcount
      exact hcount

/-- The witness of C1: after the first createInstance of a process, a second
one returns the same adapter 0 even though its loader would fail, and the
factory has been called once in all. -/
theorem createInstance_reuses_live_adapter_witness :
    worldCreated.singleton = some 0 ∧
    worldCreated.heap[0]? = some ⟨⟨some 100⟩, 1⟩ ∧
    ∃ w2, Droid2CameraWrapper.createInstance envNoLib 7 worldCreated = (some 0, w2) ∧
      w2.heap[0]? = some ⟨⟨some 100⟩, 2⟩ ∧
      factoryCalls w2.log = 1 := by
  have hw := worldCreated_eq
  have hs : worldCreated.singleton = some 0 := by rw [hw.2]
  have hh : worldCreated.heap[0]? = some ⟨⟨some 100⟩, 1⟩ := by rw [hw.2]; rfl
  obtain ⟨w2, h1, _, _, _, _, _, _, _, _, h10, h11⟩ :=
    createInstance_reuses_live_adapter envNoLib 7 worldCreated 0 ⟨⟨some 100⟩, 1⟩ hs hh
      (by decide)
  exact ⟨hs, hh, w2, h1, h10, h11 envOk 0 (World.init 0) rfl hw.1⟩

/-- C2: when the cached weak pointer refers to an adapter that has been
destroyed (its last holder released it), and the library loads, the symbol
resolves and the factory returns vendor object v, createInstance calls the
factory exactly once and returns a newly constructed adapter, different from
the destroyed one, that wraps v; the cache now refers to the new adapter and
the destroyed one stays destroyed. -/
theorem createInstance_recreates_after_release {σ : Type} (env : Env σ) (cameraId : Int)
    (w : World σ) (old : Nat) (o : Object) (l f v : Nat) (s : σ)
    (hs : w.singleton = some old) (hh : w.heap[old]? = some o) (hd : o.strong = 0)
    (hl : env.dlopen "libmotocamera.so" = some l)
    (hf : env.dlsym l "_ZN7android9CameraHal14createInstanceEv" = some f)
    (hv : env.func f w.vendor = (some v, s)) :
    ∃ fresh w2, Droid2CameraWrapper.createInstance env cameraId w = (some fresh, w2) ∧
      fresh ≠ old ∧ fresh = w.heap.length ∧
      w2.heap[fresh]? = some ⟨⟨some v⟩, 1⟩ ∧
      w2.heap[old]? = some o ∧
      w2.singleton = some fresh ∧ w2.vendor = s ∧
      w2.log = w.log ++ [.dlopen "libmotocamera.so",
        .dlsym l "_ZN7android9CameraHal14createInstanceEv",
        .factory f, .construct fresh (some v)] ∧
      factoryCalls w2.log = factoryCalls w.log + 1 ∧
      constructions w2.log = constructions w.log + 1 := by
  have hstale : w.cacheLive = false := by
    simp [World.cacheLive, hs, hh, hd]
  have hlt : old < w.heap.length := by
    rcases List.getElem?_eq_some.mp hh with ⟨h, _⟩
    exact h
  have hv1 : (env.func f w.vendor).1 = some v := by rw [hv]
  have hv2 : (env.func f w.vendor).2 = s := by rw [hv]
  refine ⟨w.heap.length, _,
    createInstance_of_created env cameraId w l f v hstale hl hf hv1,
    Nat.ne_of_gt hlt, rfl, ?_, ?_, rfl, hv2, rfl, ?_, ?_⟩
  · simp
  · simp [List.getElem?_append_left hlt, hh]
  · simp [factoryCalls]
  · simp [constructions]

/-- The state after the holder of the first adapter released it, evaluated. -/
theorem worldStale_eq :
    worldStale = ⟨[⟨⟨some 100⟩, 0⟩], some 0, 1,
      [.dlopen "libmotocamera.so",
       .dlsym 11 "_ZN7android9CameraHal14createInstanceEv",
       .factory 22, .construct 0 (some 100)]⟩ := by
  unfold worldStale
  rw [worldCreated_eq.2]
  rfl

/-- The witness of C2: adapter 0 was created and then released by its only
holder; the next createInstance constructs adapter 1 around the vendor object
the factory returns now, and the factory has then been called twice. -/
theorem createInstance_recreates_after_release_witness :
    worldStale.singleton = some 0 ∧ worldStale.heap[0]? = some ⟨⟨some 100⟩, 0⟩ ∧
    ∃ w2, Droid2CameraWrapper.createInstance envOk 3 worldStale = (some 1, w2) ∧
      w2.heap[1]? = some ⟨⟨some 101⟩, 1⟩ ∧
      w2.heap[0]? = some ⟨⟨some 100⟩, 0⟩ ∧
      w2.singleton = some 1 ∧ w2.vendor = 2 ∧
      factoryCalls w2.log = 2 ∧ constructions w2.log = 2 := by
  have hs : worldStale.singleton = some 0 := by rw [worldStale_eq]
  have hh : worldStale.heap[0]? = some ⟨⟨some 100⟩, 0⟩ := by rw [worldStale_eq]; rfl
  have hv : envOk.func 22 worldStale.vendor = (some 101, 2) := by rw [worldStale_eq]; rfl
  have hlen : worldStale.heap.length = 1 := by rw [worldStale_eq]; rfl
  have hfc : factoryCalls worldStale.log = 1 := by rw [worldStale_eq]; rfl
  have hcc : constructions worldStale.log = 1 := by rw [worldStale_eq]; rfl
  obtain ⟨fresh, w2, h1, _, h3, h4, h5, h6, h7, _, h9, h10⟩ :=
    createInstance_recreates_after_release envOk 3 worldStale 0 ⟨⟨some 100⟩, 0⟩ 11 22 101 2
      hs hh rfl (by simp [envOk]) (by simp [envOk]) hv
  rw [hlen] at h3
  subst h3
  rw [hfc] at h9
  rw [hcc] at h10
  exact ⟨hs, hh, w2, h1, h4, h5, h6, h7, h9, h10⟩

/-- C3: with an empty or stale cache, when the library does not load, or loads
but the factory symbol is not found, createInstance returns NULL; it has
attempted the load exactly once, called the factory never and constructed no
adapter, and the adapters, the cache and the vendor state are as before.  When
the load failed, no symbol resolution was attempted. -/
theorem createInstance_empty_on_load_or_symbol_failure {σ : Type} (env : Env σ)
    (cameraId : Int) (w : World σ) (hstale : w.cacheLive = false)
    (hfail : env.dlopen "libmotocamera.so" = none ∨
      ∃ l, env.dlopen "libmotocamera.so" = some l ∧
        env.dlsym l "_ZN7android9CameraHal14createInstanceEv" = none) :
    ∃ w2, Droid2CameraWrapper.createInstance env cameraId w = (none, w2) ∧
      w2.heap = w.heap ∧ w2.singleton = w.singleton ∧ w2.vendor = w.vendor ∧
      loads w2.log = loads w.log + 1 ∧
      factoryCalls w2.log = factoryCalls w.log ∧
      constructions w2.log = constructions w.log ∧
      vendorCalls w2.log = vendorCalls w.log ∧
      (env.dlopen "libmotocamera.so" = none →
        resolves w2.log = resolves w.log ∧
        w2.log = w.log ++ [.dlopen "libmotocamera.so"]) ∧
      (∀ l, env.dlopen "libmotocamera.so" = some l →
        resolves w2.log = resolves w.log + 1 ∧
        w2.log = w.log ++ [.dlopen "libmotocamera.so",
          .dlsym l "_ZN7android9CameraHal14createInstanceEv"]) := by
  rcases hfail with hl | ⟨l, hl, hf⟩
  · refine ⟨_, createInstance_of_load_failure env cameraId w hstale hl, rfl, rfl, rfl,
      ?_, ?_, ?_, ?_, ?_, ?_⟩
    · simp [loads]
    · simp [factoryCalls]
    · simp [constructions]
    · simp [vendorCalls]
    · intro _
      exact ⟨by simp [resolves], rfl⟩
    · intro l2 hl2
      rw [hl] at hl2
      exact absurd hl2 (by simp)
  · refine ⟨_, createInstance_of_symbol_failure env cameraId w l hstale hl hf, rfl, rfl, rfl,
      ?_, ?_, ?_, ?_, ?_, ?_⟩
    · simp [loads]
    · simp [factoryCalls]
    · simp [constructions]
    · simp [vendorCalls]
    · intro hn
      rw [hl] at hn
      exact absurd hn (by simp)
    · intro l2 hl2
      rw [hl] at hl2
      cases hl2
      exact ⟨by simp [resolves], rfl⟩

/-- The witness of C3: at process start, a loader that cannot load the
library gives NULL after one load attempt and nothing else; a loader that
loads the library but does not find the symbol gives NULL after one load and
one resolution attempt. -/
theorem createInstance_empty_on_load_or_symbol_failure_witness :
    (World.init (0 : Nat)).cacheLive = false ∧
    envNoLib.dlopen "libmotocamera.so" = none ∧
    (∃ w2, Droid2CameraWrapper.createInstance envNoLib 0 (World.init 0) = (none, w2) ∧
      w2.heap = [] ∧ w2.singleton = none ∧ w2.vendor = 0 ∧
      w2.log = [.dlopen "libmotocamera.so"]) ∧
    envNoSym.dlopen "libmotocamera.so" = some 11 ∧
    envNoSym.dlsym 11 "_ZN7android9CameraHal14createInstanceEv" = none ∧
    (∃ w2, Droid2CameraWrapper.createInstance envNoSym 0 (World.init 0) = (none, w2) ∧
      w2.heap = [] ∧ w2.singleton = none ∧ w2.vendor = 0 ∧
      w2.log = [.dlopen "libmotocamera.so",
        .dlsym 11 "_ZN7android9CameraHal14createInstanceEv"]) := by
  obtain ⟨w2, h1, h2, h3, h4, _, _, _, _, h9, _⟩ :=
    createInstance_empty_on_load_or_symbol_failure envNoLib 0 (World.init 0) rfl
      (Or.inl rfl)
  obtain ⟨w3, k1, k2, k3, k4, _, _, _, _, _, k10⟩ :=
    createInstance_empty_on_load_or_symbol_failure envNoSym 0 (World.init 0) rfl
      (Or.inr ⟨11, rfl, rfl⟩)
  exact ⟨rfl, rfl, ⟨w2, h1, h2, h3, h4, (h9 rfl).2⟩, rfl, rfl,
    ⟨w3, k1, k2, k3, k4, (k10 11 rfl).2⟩⟩

/-- C9, the claim as stated fails: at process start the library loads and the
symbol resolves, the factory is called once and returns a NULL pointer, and
createInstance constructs no adapter and returns NULL.  So an empty result
does not imply that the load or the symbol resolution failed. -/
theorem createInstance_empty_despite_resolution :
    (World.init (0 : Nat)).cacheLive = false ∧
    envNull.dlopen "libmotocamera.so" = some 11 ∧
    envNull.dlsym 11 "_ZN7android9CameraHal14createInstanceEv" = some 22 ∧
    (Droid2CameraWrapper.createInstance envNull 0 (World.init 0)).1 = none ∧
    (Droid2CameraWrapper.createInstance envNull 0 (World.init 0)).2.heap = [] ∧
    (Droid2CameraWrapper.createInstance envNull 0 (World.init 0)).2.singleton = none ∧
    factoryCalls (Droid2CameraWrapper.createInstance envNull 0 (World.init 0)).2.log = 1 ∧
    ¬ ∀ (env : Env Nat) (cameraId : Int) (w : World Nat), w.cacheLive = false →
      (∃ l f, env.dlopen "libmotocamera.so" = some l ∧
        env.dlsym l "_ZN7android9CameraHal14createInstanceEv" = some f) →
      (Droid2CameraWrapper.createInstance env cameraId w).1 ≠ none := by
  have h := createInstance_of_null_factory envNull 0 (World.init 0) 11 22 rfl rfl rfl rfl
  refine ⟨rfl, rfl, rfl, ?_, ?_, ?_, ?_, ?_⟩
  · rw [h]
  · rw [h]; rfl
  · rw [h]; rfl
  · rw [h]; rfl
  · intro hall
    exact hall envNull 0 (World.init 0) rfl ⟨11, 22, rfl, rfl⟩ (by rw [h])

/-- C9, amended: with an empty or stale cache, when the library loads and the
symbol resolves, createInstance calls the factory exactly once, without
arguments; for every non-NULL vendor pointer the factory returns it constructs
a new adapter wrapping that pointer, caches a weak pointer to it and returns
it; when the factory returns NULL it constructs nothing and returns NULL.  So
createInstance returns NULL exactly when the load failed, the symbol
resolution failed, or the factory returned NULL. -/
theorem createInstance_creation_steps {σ : Type} (env : Env σ) (cameraId : Int)
    (w : World σ) (hstale : w.cacheLive = false) :
    (∀ l f, env.dlopen "libmotocamera.so" = some l →
      env.dlsym l "_ZN7android9CameraHal14createInstanceEv" = some f →
      factoryCalls (Droid2CameraWrapper.createInstance env cameraId w).2.log =
        factoryCalls w.log + 1 ∧
      (∀ v, (env.func f w.vendor).1 = some v →
        Droid2CameraWrapper.createInstance env cameraId w =
          (some w.heap.length,
            ⟨w.heap ++ [⟨⟨some v⟩, 1⟩], some w.heap.length, (env.func f w.vendor).2,
              w.log ++ [.dlopen "libmotocamera.so",
                .dlsym l "_ZN7android9CameraHal14createInstanceEv",
                .factory f, .construct w.heap.length (some v)]⟩)) ∧
      ((env.func f w.vendor).1 = none →
        Droid2CameraWrapper.createInstance env cameraId w =
          (none, { w with vendor := (env.func f w.vendor).2,
                          log := w.log ++ [.dlopen "libmotocamera.so",
                            .dlsym l "_ZN7android9CameraHal14createInstanceEv",
                            .factory f] }))) ∧
    ((Droid2CameraWrapper.createInstance env cameraId w).1 = none ↔
      env.dlopen "libmotocamera.so" = none ∨
      (∃ l, env.dlopen "libmotocamera.so" = some l ∧
        env.dlsym l "_ZN7android9CameraHal14createInstanceEv" = none) ∨
      (∃ l f, env.dlopen "libmotocamera.so" = some l ∧
        env.dlsym l "_ZN7android9CameraHal14createInstanceEv" = some f ∧
        (env.func f w.vendor).1 = none)) := by
  constructor
  · intro l f hl hf
    refine ⟨?_, fun v hv => createInstance_of_created env cameraId w l f v hstale hl hf hv,
      fun hv => createInstance_of_null_factory env cameraId w l f hstale hl hf hv⟩
    cases hv : (env.func f w.vendor).1 with
    | none =>
      rw [createInstance_of_null_factory env cameraId w l f hstale hl hf hv]
      simp [factoryCalls]
    | some v =>
      rw [createInstance_of_created env cameraId w l f v hstale hl hf hv]
      simp [factoryCalls]
  · cases hl : env.dlopen "libmotocamera.so" with
    | none =>
      rw [createInstance_of_load_failure env cameraId w hstale hl]
      simp
    | some l =>
      cases hf : env.dlsym l "_ZN7android9CameraHal14createInstanceEv" with
      | none =>
        rw [createInstance_of_symbol_failure env cameraId w l hstale hl hf]
        simp [hf]
      | some f =>
        cases hv : (env.func f w.vendor).1 with
        | none =>
          rw [createInstance_of_null_factory env cameraId w l f hstale hl hf hv]
          simp [hf, hv]
        | some v =>
          rw [createInstance_of_created env cameraId w l f v hstale hl hf hv]
          simp [hf, hv]

/-- The witness of C9 amended: at process start, with a loader and a factory
that succeed, createInstance returns the new adapter 0 wrapping the vendor
object 100 the factory returned. -/
theorem createInstance_creation_steps_witness :
    (World.init (0 : Nat)).cacheLive = false ∧
    Droid2CameraWrapper.createInstance envOk 5 (World.init 0) =
      (some 0, ⟨[⟨⟨some 100⟩, 1⟩], some 0, 1,
        [.dlopen "libmotocamera.so",
         .dlsym 11 "_ZN7android9CameraHal14createInstanceEv",
         .factory 22, .construct 0 (some 100)]⟩) :=
  ⟨rfl, ((createInstance_creation_steps envOk 5 (World.init 0) rfl).1 11 22
    (by simp [envOk]) (by simp [envOk])).2.1 100 rfl⟩

/-! ## Invariants of sequential executions -/

/-- Changing the reference count of one adapter keeps every adapter object
as it was and changes no other count. -/
theorem getElem?_set_strong (heap : List Object) (i : Nat) (oi : Object) (n : Nat)
    (hh : heap[i]? = some oi) (j : Nat) (o : Object)
    (h : (heap.set i ⟨oi.obj, n⟩)[j]? = some o) :
    ∃ o0, heap[j]? = some o0 ∧ o0.obj = o.obj ∧
      ((j = i ∧ o0 = oi ∧ o.strong = n) ∨ (j ≠ i ∧ o0 = o)) := by
  rw [List.getElem?_set] at h
  by_cases hij : i = j
  · subst hij
    have hlt : i < heap.length := by
      rcases List.getElem?_eq_some.mp hh with ⟨h1, _⟩
      exact h1
    simp [hlt] at h
    subst h
    exact ⟨oi, hh, rfl, Or.inl ⟨rfl, rfl, rfl⟩⟩
  · simp [hij] at h
    exact ⟨o, h, rfl, Or.inr ⟨fun e => hij e.symm, rfl⟩⟩

/-- An adapter operation changes neither the adapters nor the cache. -/
theorem Droid2CameraWrapper.dispatch_frame {σ : Type} (vendor : CameraHardwareInterface σ)
    (this : Nat) (c : Call) (w : World σ) (r : c.Ret × World σ)
    (h : Droid2CameraWrapper.dispatch vendor this c w = some r) :
    r.2.heap = w.heap ∧ r.2.singleton = w.singleton := by
  cases hm : Droid2CameraWrapper.moto this w with
  | none =>
    cases c <;>
      simp [Droid2CameraWrapper.dispatch, Droid2CameraWrapper.getPreviewHeap,
        Droid2CameraWrapper.getRawHeap, Droid2CameraWrapper.setCallbacks,
        Droid2CameraWrapper.enableMsgType, Droid2CameraWrapper.disableMsgType,
        Droid2CameraWrapper.msgTypeEnabled, Droid2CameraWrapper.startPreview,
        Droid2CameraWrapper.useOverlay, Droid2CameraWrapper.setOverlay,
        Droid2CameraWrapper.stopPreview, Droid2CameraWrapper.previewEnabled,
        Droid2CameraWrapper.startRecording, Droid2CameraWrapper.stopRecording,
        Droid2CameraWrapper.recordingEnabled, Droid2CameraWrapper.releaseRecordingFrame,
        Droid2CameraWrapper.autoFocus, Droid2CameraWrapper.cancelAutoFocus,
        Droid2CameraWrapper.takePicture, Droid2CameraWrapper.cancelPicture,
        Droid2CameraWrapper.setParameters, Droid2CameraWrapper.getParameters,
        Droid2CameraWrapper.sendCommand, Droid2CameraWrapper.release,
        Droid2CameraWrapper.dump, hm] at h
    subst h
    exact ⟨rfl, rfl⟩
  | some m =>
    cases c <;>
      simp [Droid2CameraWrapper.dispatch, Droid2CameraWrapper.getPreviewHeap,
        Droid2CameraWrapper.getRawHeap, Droid2CameraWrapper.setCallbacks,
        Droid2CameraWrapper.enableMsgType, Droid2CameraWrapper.disableMsgType,
        Droid2CameraWrapper.msgTypeEnabled, Droid2CameraWrapper.startPreview,
        Droid2CameraWrapper.useOverlay, Droid2CameraWrapper.setOverlay,
        Droid2CameraWrapper.stopPreview, Droid2CameraWrapper.previewEnabled,
        Droid2CameraWrapper.startRecording, Droid2CameraWrapper.stopRecording,
        Droid2CameraWrapper.recordingEnabled, Droid2CameraWrapper.releaseRecordingFrame,
        Droid2CameraWrapper.autoFocus, Droid2CameraWrapper.cancelAutoFocus,
        Droid2CameraWrapper.takePicture, Droid2CameraWrapper.cancelPicture,
        Droid2CameraWrapper.setParameters, Droid2CameraWrapper.getParameters,
        Droid2CameraWrapper.sendCommand, Droid2CameraWrapper.release,
        Droid2CameraWrapper.dump, hm, invoke, World.emit] at h <;>
      subst h <;> exact ⟨rfl, rfl⟩

/-- On a live adapter that wraps a non-NULL pointer every operation has a
defined result. -/
theorem Droid2CameraWrapper.dispatch_isSome {σ : Type} (vendor : CameraHardwareInterface σ)
    (this : Nat) (c : Call) (w : World σ) (v : Nat)
    (hm : Droid2CameraWrapper.moto this w = some v) :
    (Droid2CameraWrapper.dispatch vendor this c w).isSome = true := by
  cases c <;>
    simp [Droid2CameraWrapper.dispatch, Droid2CameraWrapper.getPreviewHeap,
      Droid2CameraWrapper.getRawHeap, Droid2CameraWrapper.setCallbacks,
      Droid2CameraWrapper.enableMsgType, Droid2CameraWrapper.disableMsgType,
      Droid2CameraWrapper.msgTypeEnabled, Droid2CameraWrapper.startPreview,
      Droid2CameraWrapper.useOverlay, Droid2CameraWrapper.setOverlay,
      Droid2CameraWrapper.stopPreview, Droid2CameraWrapper.previewEnabled,
      Droid2CameraWrapper.startRecording, Droid2CameraWrapper.stopRecording,
      Droid2CameraWrapper.recordingEnabled, Droid2CameraWrapper.releaseRecordingFrame,
      Droid2CameraWrapper.autoFocus, Droid2CameraWrapper.cancelAutoFocus,
      Droid2CameraWrapper.takePicture, Droid2CameraWrapper.cancelPicture,
      Droid2CameraWrapper.setParameters, Droid2CameraWrapper.getParameters,
      Droid2CameraWrapper.sendCommand, Droid2CameraWrapper.release,
      Droid2CameraWrapper.dump, hm]

/-- One step keeps the invariant that every live adapter is the cached one. -/
theorem step_live_is_cached {σ : Type} (vendor : CameraHardwareInterface σ) (w : World σ)
    (st : Step σ)
    (hinv : ∀ id o, w.heap[id]? = some o → 0 < o.strong → w.singleton = some id) :
    ∀ id o, (step vendor w st).heap[id]? = some o → 0 < o.strong →
      (step vendor w st).singleton = some id := by
  cases st with
  | create env cameraId =>
    simp only [step, HAL_openCameraHardware]
    rcases createInstance_cases env cameraId w with
      ⟨i, oi, hsi, hhi, _, _, hheap, hsing, _⟩ | ⟨_, _, hheap, hsing, _⟩ |
      ⟨hst, v, _, hheap, hsing, _⟩
    · intro id o h ha
      rw [hheap] at h
      rw [hsing]
      obtain ⟨o0, h0, _, hcase⟩ := getElem?_set_strong w.heap i oi (oi.strong + 1) hhi id o h
      rcases hcase with ⟨hji, _, _⟩ | ⟨_, heq⟩
      · rw [hji]; exact hsi
      · rw [heq] at h0; exact hinv id o h0 ha
    · rw [hheap, hsing]; exact hinv
    · intro id o h ha
      rw [hheap] at h
      rw [hsing]
      rcases Nat.lt_trichotomy id w.heap.length with hlt | heq | hgt
      · rw [List.getElem?_append_left hlt] at h
        have hc : w.cacheLive = true :=
          (World.cacheLive_iff w).mpr ⟨id, o, hinv id o h ha, h, ha⟩
        rw [hst] at hc
        exact absurd hc (by decide)
      · rw [heq]
      · have hnone : (w.heap ++ [(⟨⟨some v⟩, 1⟩ : Object)])[id]? = none := by
          apply List.getElem?_eq_none
          simp
          omega
        rw [hnone] at h
        exact absurd h (by simp)
  | incStrong i =>
    simp only [step, incStrong]
    cases hh : w.heap[i]? with
    | none => exact hinv
    | some oi =>
      by_cases ha : 0 < oi.strong
      · simp only [ha, if_true]
        intro id o h hpos
        obtain ⟨o0, h0, _, hcase⟩ := getElem?_set_strong w.heap i oi (oi.strong + 1) hh id o h
        rcases hcase with ⟨_, h2, _⟩ | ⟨_, heq⟩
        · rw [h2] at h0; exact hinv id oi h0 ha
        · rw [heq] at h0; exact hinv id o h0 hpos
      · simp only [ha, if_false]; exact hinv
  | decStrong i =>
    simp only [step, decStrong]
    cases hh : w.heap[i]? with
    | none => exact hinv
    | some oi =>
      by_cases ha : 0 < oi.strong
      · simp only [ha, if_true]
        intro id o h hpos
        obtain ⟨o0, h0, _, hcase⟩ := getElem?_set_strong w.heap i oi (oi.strong - 1) hh id o h
        rcases hcase with ⟨_, h2, _⟩ | ⟨_, heq⟩
        · rw [h2] at h0; exact hinv id oi h0 ha
        · rw [heq] at h0; exact hinv id o h0 hpos
      · simp only [ha, if_false]; exact hinv
  | call i c =>
    simp only [step]
    cases hd : Droid2CameraWrapper.dispatch vendor i c w with
    | none => exact hinv
    | some r =>
      obtain ⟨hheap, hsing⟩ := Droid2CameraWrapper.dispatch_frame vendor i c w r hd
      simp only [hheap, hsing]
      exact hinv

/-- One step keeps the invariant that every adapter wraps a non-NULL
pointer. -/
theorem step_handles_non_null {σ : Type} (vendor : CameraHardwareInterface σ) (w : World σ)
    (st : Step σ)
    (hinv : ∀ (id : Nat) (o : Object), w.heap[id]? = some o →
      ∃ v, o.obj.mMotoInterface = some v) :
    ∀ (id : Nat) (o : Object), (step vendor w st).heap[id]? = some o →
      ∃ v, o.obj.mMotoInterface = some v := by
  cases st with
  | create env cameraId =>
    simp only [step, HAL_openCameraHardware]
    rcases createInstance_cases env cameraId w with
      ⟨i, oi, _, hhi, _, _, hheap, _, _⟩ | ⟨_, _, hheap, _, _⟩ | ⟨_, v, _, hheap, _, _⟩
    · intro id o h
      rw [hheap] at h
      obtain ⟨o0, h0, hobj, _⟩ := getElem?_set_strong w.heap i oi (oi.strong + 1) hhi id o h
      rw [← hobj]; exact hinv id o0 h0
    · rw [hheap]; exact hinv
    · intro id o h
      rw [hheap] at h
      rcases Nat.lt_trichotomy id w.heap.length with hlt | heq | hgt
      · rw [List.getElem?_append_left hlt] at h
        exact hinv id o h
      · rw [heq, List.getElem?_concat_length] at h
        cases h
        exact ⟨v, rfl⟩
      · have hnone : (w.heap ++ [(⟨⟨some v⟩, 1⟩ : Object)])[id]? = none := by
          apply List.getElem?_eq_none
          simp
          omega
        rw [hnone] at h
        exact absurd h (by simp)
  | incStrong i =>
    simp only [step, incStrong]
    cases hh : w.heap[i]? with
    | none => exact hinv
    | some oi =>
      by_cases ha : 0 < oi.strong
      · simp only [ha, if_true]
        intro id o h
        obtain ⟨o0, h0, hobj, _⟩ := getElem?_set_strong w.heap i oi (oi.strong + 1) hh id o h
        rw [← hobj]; exact hinv id o0 h0
      · simp only [ha, if_false]; exact hinv
  | decStrong i =>
    simp only [step, decStrong]
    cases hh : w.heap[i]? with
    | none => exact hinv
    | some oi =>
      by_cases ha : 0 < oi.strong
      · simp only [ha, if_true]
        intro id o h
        obtain ⟨o0, h0, hobj, _⟩ := getElem?_set_strong w.heap i oi (oi.strong - 1) hh id o h
        rw [← hobj]; exact hinv id o0 h0
      · simp only [ha, if_false]; exact hinv
  | call i c =>
    simp only [step]
    cases hd : Droid2CameraWrapper.dispatch vendor i c w with
    | none => exact hinv
    | some r =>
      obtain ⟨hheap, _⟩ := Droid2CameraWrapper.dispatch_frame vendor i c w r hd
      simp only [hheap]
      exact hinv

/-- Along every execution, every live adapter is the cached one. -/
theorem run_live_is_cached {σ : Type} (vendor : CameraHardwareInterface σ)
    (steps : List (Step σ)) (w : World σ)
    (hinv : ∀ id o, w.heap[id]? = some o → 0 < o.strong → w.singleton = some id) :
    ∀ id o, (run vendor w steps).heap[id]? = some o → 0 < o.strong →
      (run vendor w steps).singleton = some id := by
  induction steps generalizing w with
  | nil => exact hinv
  | cons st rest ih =>
    exact ih (step vendor w st) (step_live_is_cached vendor w st hinv)

/-- Along every execution, every adapter wraps a non-NULL pointer. -/
theorem run_handles_non_null {σ : Type} (vendor : CameraHardwareInterface σ)
    (steps : List (Step σ)) (w : World σ)
    (hinv : ∀ (id : Nat) (o : Object), w.heap[id]? = some o →
      ∃ v, o.obj.mMotoInterface = some v) :
    ∀ (id : Nat) (o : Object), (run vendor w steps).heap[id]? = some o →
      ∃ v, o.obj.mMotoInterface = some v := by
  induction steps generalizing w with
  | nil => exact hinv
  | cons st rest ih =>
    exact ih (step vendor w st) (step_handles_non_null vendor w st hinv)

/-- Running a sequence and then one more step. -/
theorem run_concat {σ : Type} (vendor : CameraHardwareInterface σ) (w : World σ)
    (steps : List (Step σ)) (st : Step σ) :
    run vendor w (steps ++ [st]) = step vendor (run vendor w steps) st := by
  simp [run, List.foldl_append]

/-- The adapter createInstance returns is on the heap and alive. -/
theorem createInstance_result_live {σ : Type} (env : Env σ) (cameraId : Int) (w : World σ)
    (id : Nat) (h : (Droid2CameraWrapper.createInstance env cameraId w).1 = some id) :
    ∃ o, (Droid2CameraWrapper.createInstance env cameraId w).2.heap[id]? = some o ∧
      0 < o.strong := by
  rcases createInstance_cases env cameraId w with
    ⟨i, oi, _, hhi, _, hres, hheap, _, _⟩ | ⟨_, hres, _, _, _⟩ | ⟨_, v, hres, hheap, _, _⟩
  · have hlt : i < w.heap.length := by
      rcases List.getElem?_eq_some.mp hhi with ⟨h1, _⟩
      exact h1
    rw [hres] at h
    have hid : i = id := Option.some.inj h
    refine ⟨⟨oi.obj, oi.strong + 1⟩, ?_, Nat.succ_pos _⟩
    rw [hheap, ← hid]
    simp [List.getElem?_set, hlt]
  · rw [hres] at h
    exact absurd h (by simp)
  · rw [hres] at h
    have hid : w.heap.length = id := Option.some.inj h
    refine ⟨⟨⟨some v⟩, 1⟩, ?_, Nat.one_pos⟩
    rw [hheap, ← hid]
    simp

/-- A list without duplicates whose members are all equal has at most one
member. -/
theorem length_le_one_of_all_eq (l : List Nat) (hnd : l.Nodup)
    (hall : ∀ a ∈ l, ∀ b ∈ l, a = b) : l.length ≤ 1 := by
  match l, hnd, hall with
  | [], _, _ => simp
  | [_], _, _ => simp
  | a :: b :: t, hnd, hall =>
    have hab : a = b := hall a (by simp) b (by simp)
    rw [hab] at hnd
    simp at hnd

/-- The members of the list of live adapters are the adapters on the heap
with a positive reference count. -/
theorem World.mem_live {σ : Type} (w : World σ) (id : Nat) :
    id ∈ w.live ↔ ∃ o, w.heap[id]? = some o ∧ 0 < o.strong := by
  unfold World.live
  rw [List.mem_filter]
  constructor
  · rintro ⟨_, h⟩
    cases hh : w.heap[id]? with
    | none => simp [hh] at h
    | some o =>
      simp [hh] at h
      exact ⟨o, rfl, h⟩
  · rintro ⟨o, hh, ha⟩
    have hlt : id < w.heap.length := by
      rcases List.getElem?_eq_some.mp hh with ⟨h1, _⟩
      exact h1
    exact ⟨List.mem_range.mpr hlt, by simp [hh, ha]⟩

/-- C8: starting from the empty cache, after every finite sequence of
createInstance calls (any camera ids, any outcomes of the loader and the
factory), copies and releases of the returned pointers, and adapter
operations, every live adapter is the one the cached weak pointer refers to;
so any two live adapters are the same one, and the list of live adapters has
at most one member. -/
theorem at_most_one_live_adapter {σ : Type} (vendor : CameraHardwareInterface σ) (s : σ)
    (steps : List (Step σ)) :
    (∀ id o, (run vendor (World.init s) steps).heap[id]? = some o → 0 < o.strong →
      (run vendor (World.init s) steps).singleton = some id) ∧
    (∀ (i j : Nat) (oi oj : Object),
      (run vendor (World.init s) steps).heap[i]? = some oi → 0 < oi.strong →
      (run vendor (World.init s) steps).heap[j]? = some oj → 0 < oj.strong → i = j) ∧
    (run vendor (World.init s) steps).live.length ≤ 1 := by
  have hinv := run_live_is_cached vendor steps (World.init s)
    (by intro id o h; simp [World.init] at h)
  have hpair : ∀ (i j : Nat) (oi oj : Object),
      (run vendor (World.init s) steps).heap[i]? = some oi →
      0 < oi.strong → (run vendor (World.init s) steps).heap[j]? = some oj →
      0 < oj.strong → i = j := by
    intro i j oi oj hi hai hj haj
    have h1 := hinv i oi hi hai
    have h2 := hinv j oj hj haj
    rw [h1] at h2
    exact Option.some.inj h2
  refine ⟨hinv, hpair, ?_⟩
  apply length_le_one_of_all_eq
  · exact List.Nodup.filter _ (List.nodup_range _)
  · intro a ha b hb
    obtain ⟨oa, hha, hpa⟩ := (World.mem_live _ a).mp ha
    obtain ⟨ob, hhb, hpb⟩ := (World.mem_live _ b).mp hb
    exact hpair a b oa ob hha hpa hhb hpb

/-- The demonstration execution, evaluated. -/
theorem run_stepsDemo :
    run vendorDouble (World.init 0) stepsDemo =
      ⟨[⟨⟨some 100⟩, 0⟩, ⟨⟨some 101⟩, 1⟩], some 1, 2,
        [.dlopen "libmotocamera.so",
         .dlsym 11 "_ZN7android9CameraHal14createInstanceEv",
         .factory 22, .construct 0 (some 100),
         .dlopen "libmotocamera.so",
         .dlsym 11 "_ZN7android9CameraHal14createInstanceEv",
         .factory 22, .construct 1 (some 101)]⟩ := by
  rfl

/-- The witness of C8: after opening the camera twice, dropping both pointers
and opening it again, adapter 1 is the only live adapter and the cached one. -/
theorem at_most_one_live_adapter_witness :
    (run vendorDouble (World.init 0) stepsDemo).heap[1]? = some ⟨⟨some 101⟩, 1⟩ ∧
    (run vendorDouble (World.init 0) stepsDemo).singleton = some 1 ∧
    (run vendorDouble (World.init 0) stepsDemo).live.length ≤ 1 := by
  have h := at_most_one_live_adapter vendorDouble 0 stepsDemo
  have hh : (run vendorDouble (World.init 0) stepsDemo).heap[1]? = some ⟨⟨some 101⟩, 1⟩ := by
    rw [run_stepsDemo]; rfl
  exact ⟨hh, h.1 1 _ hh (by decide), h.2.2⟩

/-- C10: starting from the empty cache, after every finite sequence of
createInstance calls, copies and releases of the returned pointers, and
adapter operations, every adapter wraps a non-NULL vendor pointer; the adapter
returned by a further createInstance is alive and wraps a non-NULL vendor
pointer; and every operation on a live adapter, getParameters and the
forwarding operations included, finds a vendor object to call and has a
defined result. -/
theorem wrapped_handle_never_empty {σ : Type} (vendor : CameraHardwareInterface σ) (s : σ)
    (steps : List (Step σ)) :
    (∀ (id : Nat) (o : Object), (run vendor (World.init s) steps).heap[id]? = some o →
      ∃ v, o.obj.mMotoInterface = some v) ∧
    (∀ (env : Env σ) (cameraId : Int) (id : Nat),
      (Droid2CameraWrapper.createInstance env cameraId
        (run vendor (World.init s) steps)).1 = some id →
      ∃ o v, (Droid2CameraWrapper.createInstance env cameraId
          (run vendor (World.init s) steps)).2.heap[id]? = some o ∧
        0 < o.strong ∧ o.obj.mMotoInterface = some v ∧
        Droid2CameraWrapper.moto id (Droid2CameraWrapper.createInstance env cameraId
          (run vendor (World.init s) steps)).2 = some v ∧
        ∀ c, (Droid2CameraWrapper.dispatch vendor id c
          (Droid2CameraWrapper.createInstance env cameraId
            (run vendor (World.init s) steps)).2).isSome = true) ∧
    (∀ (id : Nat) (o : Object) (c : Call),
      (run vendor (World.init s) steps).heap[id]? = some o → 0 < o.strong →
      (∃ v, Droid2CameraWrapper.moto id (run vendor (World.init s) steps) = some v) ∧
      (Droid2CameraWrapper.dispatch vendor id c
        (run vendor (World.init s) steps)).isSome = true) := by
  have hinit : ∀ (id : Nat) (o : Object), (World.init s).heap[id]? = some o →
      ∃ v, o.obj.mMotoInterface = some v := by
    intro id o h
    simp [World.init] at h
  have hinv := run_handles_non_null vendor steps (World.init s) hinit
  refine ⟨hinv, ?_, ?_⟩
  · intro env cameraId id hres
    obtain ⟨o, hh, ha⟩ := createInstance_result_live env cameraId _ id hres
    have hinv2 := run_handles_non_null vendor (steps ++ [.create env cameraId])
      (World.init s) hinit
    rw [run_concat] at hinv2
    simp only [step, HAL_openCameraHardware] at hinv2
    obtain ⟨v, hv⟩ := hinv2 id o hh
    have hm := Droid2CameraWrapper.moto_eq hh ha hv
    exact ⟨o, v, hh, ha, hv, hm, fun c =>
      Droid2CameraWrapper.dispatch_isSome vendor id c _ v hm⟩
  · intro id o c hh ha
    obtain ⟨v, hv⟩ := hinv id o hh
    have hm := Droid2CameraWrapper.moto_eq hh ha hv
    exact ⟨⟨v, hm⟩, Droid2CameraWrapper.dispatch_isSome vendor id c _ v hm⟩

/-- The witness of C10: after opening the camera twice, dropping both
pointers and opening it again, the live adapter 1 wraps a vendor object and
startPreview on it reaches the vendor. -/
theorem wrapped_handle_never_empty_witness :
    (run vendorDouble (World.init 0) stepsDemo).heap[1]? = some ⟨⟨some 101⟩, 1⟩ ∧
    (∃ v, Droid2CameraWrapper.moto 1 (run vendorDouble (World.init 0) stepsDemo) = some v) ∧
    (Droid2CameraWrapper.dispatch vendorDouble 1 .startPreview
      (run vendorDouble (World.init 0) stepsDemo)).isSome = true := by
  have hh : (run vendorDouble (World.init 0) stepsDemo).heap[1]? = some ⟨⟨some 101⟩, 1⟩ := by
    rw [run_stepsDemo]; rfl
  have h := (wrapped_handle_never_empty vendorDouble 0 stepsDemo).2.2 1 _ .startPreview hh
    (by decide)
  exact ⟨hh, h.1, h.2⟩

end android
